import Mathlib

/-!
Verification development for the voice-agent call-turn controller.

The definitions below are a shallow embedding of the Python sources:
  * `src/voice_agent/api/webhooks.py`   (the `/voice/transcribe` route and the
    `/vapi/events` `user_message` route),
  * `src/voice_agent/handlers/ai.py`    (`generate_order_reply`),
  * `src/voice_agent/integrations/chatwoot.py` (the in-memory call registry,
    `add_message`, `add_message_for_call`, `end_conversation`).

Strings are embedded as `List Char`.  Python's `re.search` calls are embedded
as explicit leftmost-match scanners with the same backtracking behaviour as
the three concrete patterns used by the code.  External HTTP collaborators
(Shopify lookup, LLM reply, Chatwoot message API) are oracle parameters;
per the sources, every collaborator failure is normalised to an
empty/absent sentinel before reaching the control flow, so the oracles are
total functions.
-/

namespace VoiceAgent

/-- Text is embedded as a list of characters. -/
abbrev Str := List Char

/-- The apostrophe character (used by several phrase constants). -/
def apos : Char := Char.ofNat 39

/-- Python `str.lower()` on the ASCII inputs this system handles. -/
def lowerStr (s : Str) : Str := s.map Char.toLower

/-- Whitespace class used by Python `str.strip()` and the regex `\s`
(the ASCII part, which is all the code relies on). -/
def isSpc (c : Char) : Bool :=
  c = ' ' || c = '\t' || c = '\n' || c = '\r' || c = Char.ofNat 11 || c = Char.ofNat 12

/-- Python `str.strip()`. -/
def stripStr (s : Str) : Str :=
  ((s.dropWhile isSpc).reverse.dropWhile isSpc).reverse

/-- Does `s` start with `pre`? (helper for substring search). -/
def startsWithL : Str → Str → Bool
  | _, [] => true
  | [], _ :: _ => false
  | c :: cs, d :: ds => c = d && startsWithL cs ds

/-- Python `needle in hay` substring test. -/
def containsL (needle : Str) : Str → Bool
  | [] => startsWithL [] needle
  | c :: t => startsWithL (c :: t) needle || containsL needle t

/-- Python regex word character `\w` (ASCII part). -/
def isWordChar (c : Char) : Bool := c.isAlphanum || c = '_'

/-- Does the word `w` occur at the head of `t`, with a word boundary on each
side?  `prev` is the character just before `t` (if any). -/
def wordAtHere (w : Str) (prev : Option Char) (t : Str) : Bool :=
  (match prev with | none => true | some c => !isWordChar c) &&
  startsWithL t w &&
  (match t.drop w.length with | [] => true | c :: _ => !isWordChar c)

/-- Scan `t` for a word-boundary occurrence of `w` (regex `\b w \b`). -/
def wordScan (w : Str) (prev : Option Char) : Str → Bool
  | [] => false
  | c :: t => wordAtHere w prev (c :: t) || wordScan w (some c) t

/-- Python `re.search(rf"\b{w}\b", t)` viewed as a Bool, for a word `w`
made of word characters. -/
def wordOccurs (w t : Str) : Bool := wordScan w none t

/-- The multi-word stop phrases from `webhooks.py` (`stop_multi`). -/
def stopMulti : List Str :=
  [("that".data ++ [apos] ++ "s all".data),
   "thats all".data,
   "nothing else".data,
   ("that".data ++ [apos] ++ "s it".data),
   "thats it".data,
   "goodbye".data]

/-- The single-token stop words from `webhooks.py` (`stop_single`). -/
def stopSingle : List Str := ["no".data, "bye".data, "nope".data]

/-- Stop detection over the normalized text, exactly as both routes compute
it: any multi-word phrase as a substring, or any single word with word
boundaries. -/
def stopDetected (tl : Str) : Bool :=
  stopMulti.any (fun p => containsL p tl) || stopSingle.any (fun w => wordOccurs w tl)

/-- The escalation phrase list from `webhooks.py` (`escalation_phrases`). -/
def escalationPhrases : List Str :=
  ["talk to agent".data, "talk to a human".data, "talk to human".data,
   "human".data, "real person".data, "customer support".data,
   "representative".data, "agent".data]

/-- Escalation detection: any escalation phrase as a substring of the
normalized text. -/
def escalationDetected (tl : Str) : Bool :=
  escalationPhrases.any (fun p => containsL p tl)

/-- The order-intent phrase list from `ai.py` (`order_phrases`). -/
def orderPhrases : List Str :=
  ["order status".data,
   "where is my order".data,
   ("where".data ++ [apos] ++ "s my order".data),
   "track my order".data,
   "order status for".data]

/-- Order intent: any order phrase as a substring of the lowered text. -/
def orderIntent (text : Str) : Bool :=
  orderPhrases.any (fun p => containsL p text)

/-! ### The three order-id extraction patterns of `ai.py`

`m  = re.search(r"#\s?(\d+)", transcript)`
`m2 = re.search(r"order(?: number| no\.?| #)?\s*[:#]?\s*([A-Za-z0-9\-]+)", transcript, re.IGNORECASE)`
`m3 = re.search(r"\b(\d{5,})\b", transcript)`
-/

/-- After a `#`, match `\s?(\d+)` (optional single whitespace, then a
greedy digit run). -/
def hashDigitsAt (t : Str) : Option Str :=
  match t with
  | [] => none
  | c :: rest =>
    if c.isDigit then some ((c :: rest).takeWhile Char.isDigit)
    else if isSpc c then
      match rest with
      | [] => none
      | d :: _ => if d.isDigit then some (rest.takeWhile Char.isDigit) else none
    else none

/-- Leftmost match of `#\s?(\d+)`, returning the captured digits. -/
def findHash : Str → Option Str
  | [] => none
  | c :: t =>
    if c = '#' then
      match hashDigitsAt t with
      | some d => some d
      | none => findHash t
    else findHash t

/-- Case-insensitive literal prefix match (`pat` is given lower-case). -/
def startsWithCI : Str → Str → Bool
  | _, [] => true
  | [], _ :: _ => false
  | c :: cs, d :: ds => Char.toLower c = d && startsWithCI cs ds

/-- Character class `[A-Za-z0-9\-]`. -/
def tokClass (c : Char) : Bool := c.isAlpha || c.isDigit || c = '-'

/-- Deterministic tail of the `order …` pattern: `\s*[:#]?\s*([A-Za-z0-9\-]+)`.
All three classes are pairwise disjoint, so greedy matching needs no
backtracking here. -/
def m2Rest (t : Str) : Option Str :=
  let t1 := t.dropWhile isSpc
  let t2 := match t1 with
    | [] => t1
    | c :: rest => if c = ':' || c = '#' then rest else t1
  let t3 := t2.dropWhile isSpc
  let tok := t3.takeWhile tokClass
  if tok.isEmpty then none else some tok

/-- The alternatives of `(?: number| no\.?| #)?` in regex backtracking
order: with the greedy optional dot expanded, then the empty alternative. -/
def orderAlts : List Str :=
  [" number".data, " no.".data, " no".data, " #".data, []]

/-- Try the alternatives at the text just after a (case-insensitive) match
of `order`; the first alternative whose continuation succeeds wins. -/
def m2At (t : Str) : Option Str :=
  orderAlts.findSome? (fun alt =>
    if startsWithCI t alt then m2Rest (t.drop alt.length) else none)

/-- Leftmost match of the `order(?: number| no\.?| #)?\s*[:#]?\s*([A-Za-z0-9\-]+)`
pattern, returning the captured token. -/
def findOrderTok : Str → Option Str
  | [] => none
  | c :: t =>
    if startsWithCI (c :: t) ("order".data) then
      match m2At ((c :: t).drop 5) with
      | some tok => some tok
      | none => findOrderTok t
    else findOrderTok t

/-- Leftmost maximal digit run of length ≥ 5 with a word boundary on each
side (regex `\b(\d{5,})\b`); `prev` is the previous character. -/
def digits5Scan (prev : Option Char) : Str → Option Str
  | [] => none
  | c :: t =>
    let okBefore := match prev with | none => true | some p => !isWordChar p
    if okBefore && c.isDigit then
      let run := (c :: t).takeWhile Char.isDigit
      let rest := (c :: t).drop run.length
      if run.length ≥ 5 && (match rest with | [] => true | d :: _ => !isWordChar d) then
        some run
      else digits5Scan (some c) t
    else digits5Scan (some c) t

/-- Leftmost match of `\b(\d{5,})\b`. -/
def findDigits5 (t : Str) : Option Str := digits5Scan none t

/-- The order-id extraction of `ai.py` lines 165–177: the three patterns in
priority order, first success wins. -/
def extractOrderId (t : Str) : Option Str :=
  match findHash t with
  | some d => some d
  | none =>
    match findOrderTok t with
    | some tok => some tok
    | none => findDigits5 t

/-! ### Order records and `generate_order_reply` (`ai.py` lines 153–210) -/

/-- The order dict produced by `shopify.lookup_order` / `_extract_fields`,
restricted to the fields `generate_order_reply` reads.  `none` stands for
Python `None`; an empty string is also falsy for the `if order.get(...)`
tests.  `fulfillments` holds each fulfillment's `tracking_numbers` list. -/
structure OrderRec where
  id : Option Str
  order_number : Option Str
  financial_status : Option Str
  fulfillment_status : Option Str
  fulfillments : List (List Str)
deriving DecidableEq

/-- Python truthiness of an optional string. -/
def truthyS : Option Str → Bool
  | none => false
  | some s => !s.isEmpty

/-- Rendering of an optional string inside a Python f-string. -/
def pyStr : Option Str → Str
  | none => "None".data
  | some s => s

/-- Python `" ".join(parts)`-style joining. -/
def joinSep (sep : Str) : List Str → Str
  | [] => []
  | [x] => x
  | x :: y :: xs => x ++ sep ++ joinSep sep (y :: xs)

/-- Rendering of `order.get("order_number") or order.get("id")` in the
reply's first sentence. -/
def orderDisplay (o : OrderRec) : Str :=
  if truthyS o.order_number then pyStr o.order_number else pyStr o.id

/-- Flattened tracking numbers (`ai.py` lines 201–204): each fulfillment's
truthy `tracking_numbers` list is appended. -/
def trackingOf (o : OrderRec) : List Str :=
  o.fulfillments.foldl (fun acc f => if f.isEmpty then acc else acc ++ f) []

/-- The synthesized order reply (`ai.py` lines 193–209). -/
def buildOrderReplyStr (o : OrderRec) : Str :=
  let parts : List Str :=
    [("I found order ".data ++ orderDisplay o ++ ".".data)]
    ++ (if truthyS o.financial_status then
          [("Payment status: ".data ++ pyStr o.financial_status)] else [])
    ++ (if truthyS o.fulfillment_status then
          [("Fulfillment: ".data ++ pyStr o.fulfillment_status)] else [])
    ++ (if (trackingOf o).isEmpty then [] else
          [("Tracking: ".data ++ joinSep (", ".data) (trackingOf o))])
  joinSep (" ".data) parts

/-- The `order_info` second return value of `generate_order_reply`:
Python `None`, `{}`, `{searched_order, found: False}` or
`{searched_order, found: True, order}`. -/
inductive OrderInfo
  | noLookup
  | askNumber
  | notFound (searched : Str)
  | found (searched : Str) (order : OrderRec)
deriving DecidableEq

/-- Fixed prompt when no order id was extracted (`ai.py` line 181). -/
def askMsg : Str :=
  "I can check that for you — could you please provide your order number?".data

/-- Fixed reply when the lookup finds nothing (`ai.py` line 191). -/
def notFoundMsg : Str :=
  "I couldn".data ++ [apos] ++
  "t find that order in our system — could you double-check the order number?".data

/-- Embedding of `ai.py` `generate_order_reply`: detect order intent on the lowered
text, extract an id from the original transcript, and consult the lookup
collaborator.  The collaborator is the oracle `lookup`; an exception in
`lookup_order` is caught by the code and treated as `None`, so the oracle
is total.  The third component records the lookup invocations made. -/
def generate_order_reply (lookup : Str → Option OrderRec) (transcript : Str) :
    Str × OrderInfo × List Str :=
  let text := lowerStr transcript
  if !orderIntent text then ([], .noLookup, [])
  else
    match extractOrderId transcript with
    | none => (askMsg, .askNumber, [])
    | some oid =>
      match lookup oid with
      | none => (notFoundMsg, .notFound oid, [oid])
      | some o => (buildOrderReplyStr o, .found oid o, [oid])

/-! ### Events, collaborator oracles, and the two webhook routes -/

/-- Direction of a Chatwoot log message. -/
inductive Dir
  | incoming
  | outgoing
deriving DecidableEq

/-- External side-effect events observable from a turn. -/
inductive Ev
  | msg (d : Dir) (text : Str)
  | endConv (reason : Str)
  | lookupCall (oid : Str)
deriving DecidableEq

/-- Outcome of one Chatwoot message-API request (`chatwoot.py`
`add_message` lines 119–133): a 200/201 response, another status, or a
raised exception. -/
inductive ApiOut
  | ok
  | httpErr
  | exn
deriving DecidableEq

/-- Embedding of `chatwoot.add_message`: 200/201 ↦ `True`; any other status or an
exception is swallowed and ↦ `False`.  It never raises to its caller. -/
def add_message (r : ApiOut) : Bool :=
  match r with
  | .ok => true
  | .httpErr => false
  | .exn => false

/-- A turn's side-effect trace: each attempted call together with the
boolean the Chatwoot layer returned for it (discarded by the routes). -/
abbrev Trace := List (Ev × Bool)

/-- The collaborators a turn consults.  `lookup` is the Shopify order
lookup, `support` the LLM reply generator (`generate_support_reply`
returns the empty string on any internal failure and never raises), and
`api` the per-message outcome of the Chatwoot message API. -/
structure Collab where
  lookup : Str → Option OrderRec
  support : Str → Str
  api : Ev → ApiOut

/-- Record one `add_message_for_call` attempt. -/
def doMsg (api : Ev → ApiOut) (tr : Trace) (d : Dir) (s : Str) : Trace :=
  tr ++ [(Ev.msg d s, add_message (api (Ev.msg d s)))]

/-- Record one `end_conversation` attempt. -/
def doEnd (api : Ev → ApiOut) (tr : Trace) (reason : Str) : Trace :=
  tr ++ [(Ev.endConv reason, add_message (api (Ev.endConv reason)))]

/-- Record the lookup calls made inside `generate_order_reply`. -/
def doLooks (tr : Trace) (lks : List Str) : Trace :=
  tr ++ lks.map (fun o => (Ev.lookupCall o, true))

/-- Python `if call_sid:` — present and non-empty. -/
def truthyOpt : Option Str → Bool
  | none => false
  | some s => !s.isEmpty

/-- Abstract outgoing action of a turn, read off the returned TwiML:
`Say`+`Dial` ↦ TRANSFER, `Say`+`Hangup` ↦ HANGUP, `Play`+`Gather` ↦
CONTINUE, and the empty `<Response></Response>` ↦ SILENT. -/
inductive Action
  | CONTINUE
  | TRANSFER
  | HANGUP
  | SILENT
deriving DecidableEq

/-- Result of one turn on the Twilio route: the action, the text spoken
to the caller, and the side-effect trace. -/
structure TurnOut where
  action : Action
  spoken : Str
  trace : Trace
deriving DecidableEq

/-- Spoken text of the transfer TwiML (`webhooks.py` line 161). -/
def connectMsg : Str := "Connecting you to a human agent. Please hold.".data

/-- Spoken text of the hangup TwiML (`webhooks.py` line 187). -/
def goodbyeMsg : Str := "Goodbye. Have a great day.".data

/-- Chatwoot log text for a requested escalation (`webhooks.py` line 151). -/
def escIncLog : Str := "User requested escalation to human agent".data

/-- Chatwoot log text for the transfer notice (`webhooks.py` line 152). -/
def escOutLog : Str := "Agent: Escalation requested; transferring to human agent".data

/-- Chatwoot log text for a user-ended call (`webhooks.py` line 179). -/
def stopOutLog : Str := "Call ended: user ended".data

/-- Chatwoot log text for the ask-for-number branch (`webhooks.py` line 207). -/
def askedLog : Str := "Agent: Asked customer for order number".data

/-- The outgoing Chatwoot log for the order branch (`webhooks.py`
lines 203–216). -/
def orderLogOf (info : OrderInfo) : Str :=
  match info with
  | .noLookup => "Order lookup: N/A".data
  | .askNumber => askedLog
  | .notFound oid => "Agent: Order lookup attempted for ".data ++ oid ++ ", not found".data
  | .found oid o =>
      "Agent: Order lookup result for ".data ++ oid ++ ": status=".data ++
      pyStr o.financial_status ++ ", fulfillment=".data ++ pyStr o.fulfillment_status

/-- The `/voice/transcribe` route (`webhooks.py` lines 110–257), from the
point where the transcript has been determined.  Note the code checks the
raw transcript for emptiness before stripping, and checks escalation
BEFORE stop. -/
def transcribeRoute (cb : Collab) (callSid : Option Str) (transcript : Str) : TurnOut :=
  if transcript.isEmpty then
    let tr := if truthyOpt callSid then doEnd cb.api [] ("silence".data) else []
    ⟨.SILENT, [], tr⟩
  else
    let tr0 := if truthyOpt callSid then
      doMsg cb.api [] .incoming ("User: ".data ++ transcript) else []
    let tl := stripStr (lowerStr transcript)
    if escalationDetected tl then
      let tr1 := if truthyOpt callSid then
        doMsg cb.api (doMsg cb.api tr0 .incoming escIncLog) .outgoing escOutLog else tr0
      ⟨.TRANSFER, connectMsg, tr1⟩
    else if stopDetected tl then
      let tr1 := if truthyOpt callSid then
        doEnd cb.api (doMsg cb.api tr0 .outgoing stopOutLog) ("user ended".data) else tr0
      ⟨.HANGUP, goodbyeMsg, tr1⟩
    else
      let r := generate_order_reply cb.lookup transcript
      let tr1 := doLooks tr0 r.2.2
      let tr2 := if r.1.isEmpty then tr1
        else if truthyOpt callSid then doMsg cb.api tr1 .outgoing (orderLogOf r.2.1)
        else tr1
      let aiReply := if r.1.isEmpty then cb.support transcript else r.1
      if aiReply.isEmpty then ⟨.SILENT, [], tr2⟩
      else
        let tr3 := if truthyOpt callSid then
          doMsg cb.api tr2 .outgoing ("Agent: ".data ++ aiReply) else tr2
        ⟨.CONTINUE, aiReply, tr3⟩

/-- The JSON payload returned by the `/vapi/events` `user_message`
handler. -/
inductive VapiResp
  | assistantResponse (text : Str)
  | endCall (reason : Str)
  | handoff (reason : Str)
deriving DecidableEq

/-- Result of one `user_message` event on the VAPI route. -/
structure VapiOut where
  resp : VapiResp
  trace : Trace
deriving DecidableEq

/-- Abstract action of a VAPI payload (the renderer-level reading used by
the spec: `end_call` hangs up, `handoff` transfers, `assistant_response`
speaks and continues). -/
def VapiResp.action : VapiResp → Action
  | .assistantResponse _ => .CONTINUE
  | .endCall _ => .HANGUP
  | .handoff _ => .TRANSFER

/-- Text spoken to the caller for a VAPI payload: only
`assistant_response` carries any. -/
def VapiResp.spoken : VapiResp → Str
  | .assistantResponse t => t
  | .endCall _ => []
  | .handoff _ => []

/-- The `/vapi/events` `user_message` branch (`webhooks.py` lines
325–407).  The transcript is stripped up front; stop is checked BEFORE
escalation; the final `Agent:` log happens even for an empty reply; there
is no silent/end branch for an empty utterance. -/
def vapiUserMessage (cb : Collab) (callId : Option Str) (rawText : Str) : VapiOut :=
  let transcript := stripStr rawText
  let tr0 := if truthyOpt callId && !transcript.isEmpty then
    doMsg cb.api [] .incoming ("User: ".data ++ transcript) else []
  let tl := lowerStr transcript
  if !transcript.isEmpty && stopDetected tl then
    let tr1 := if truthyOpt callId then
      doEnd cb.api (doMsg cb.api tr0 .outgoing stopOutLog) ("user ended".data) else tr0
    ⟨.endCall ("user_ended".data), tr1⟩
  else if !transcript.isEmpty && escalationDetected tl then
    let tr1 := if truthyOpt callId then
      doMsg cb.api (doMsg cb.api tr0 .incoming escIncLog) .outgoing escOutLog else tr0
    ⟨.handoff ("user_requested_human".data), tr1⟩
  else
    let r := generate_order_reply cb.lookup transcript
    let tr1 := doLooks tr0 r.2.2
    let tr2 := if r.1.isEmpty then tr1
      else if truthyOpt callId then
        match r.2.1 with
        | .noLookup => tr1
        | info => doMsg cb.api tr1 .outgoing (orderLogOf info)
      else tr1
    let aiReply := if r.1.isEmpty then cb.support transcript else r.1
    let tr3 := if truthyOpt callId then
      doMsg cb.api tr2 .outgoing ("Agent: ".data ++ aiReply) else tr2
    ⟨.assistantResponse aiReply, tr3⟩

def cbNull : Collab := ⟨fun _ => none, fun _ => [], fun _ => .ok⟩

/-! ### The in-memory call registry of `chatwoot.py`

`_call_map : Dict[str, int]` is embedded as an association list with the
usual dict semantics: assignment replaces the binding of an existing key
in place, `pop` removes it.  Conversation ids are `Nat`; id `0` plays the
role of a falsy id (Python `if not conv_id` treats `0` like a missing
entry, though `create_conversation` never stores a falsy id). -/

/-- The registry state (`_call_map`). -/
abbrev Reg := List (Str × Nat)

/-- Python `_call_map.get(k)`: the value of the first binding of `k`, if any. -/
def regGet : Reg → Str → Option Nat
  | [], _ => none
  | p :: m, k => if p.1 = k then some p.2 else regGet m k

/-- Python `k in _call_map`. -/
def regHas : Reg → Str → Bool
  | [], _ => false
  | p :: m, k => p.1 = k || regHas m k

/-- Python `_call_map[k] = v`: replace the existing binding in place, else append
(Python dicts keep insertion order). -/
def regSet (m : Reg) (k : Str) (v : Nat) : Reg :=
  if regHas m k then m.map (fun p => if p.1 = k then (k, v) else p)
  else m ++ [(k, v)]

/-- Python `_call_map.pop(k, None)`: drop the binding of `k`, if any. -/
def regPop : Reg → Str → Reg
  | [], _ => []
  | p :: m, k => if p.1 = k then m else p :: regPop m k

/-- The at-most-one-entry-per-call-id invariant: registry keys are
pairwise distinct. -/
def uniqKeys (m : Reg) : Prop := (m.map (fun p => p.1)).Nodup

instance : DecidablePred uniqKeys := fun m =>
  inferInstanceAs (Decidable ((m.map (fun p : Str × Nat => p.1)).Nodup))

/-- Embedding of `chatwoot.create_conversation` (lines 38–103), with the whole HTTP
exchange abstracted into its observable outcome `convId`: `none` when any
step failed (not configured, no contact, non-2xx, exception — all of which
make the function return `None` without touching the map), `some cid`
when the conversation-create call returned id `cid`.  The map is updated
only when `conv_id and call_sid` are both truthy; the id is returned
either way. -/
def create_conversation (convId : Option Nat) (m : Reg) (call_sid : Str) :
    Reg × Option Nat :=
  match convId with
  | none => (m, none)
  | some cid =>
    if cid ≠ 0 ∧ ¬call_sid.isEmpty then (regSet m call_sid cid, some cid)
    else (m, some cid)

/-- Embedding of `chatwoot.add_message_for_call` (lines 136–142): resolve the
conversation id; if missing (or falsy) return `False` without calling the
message API; otherwise return `add_message`'s result.  The second
component records whether the message API was invoked. -/
def add_message_for_call (apiRes : ApiOut) (m : Reg) (call_sid : Str) :
    Bool × Bool :=
  match regGet m call_sid with
  | none => (false, false)
  | some cid =>
    if cid = 0 then (false, false) else (add_message apiRes, true)

/-- Embedding of `chatwoot.end_conversation` (lines 145–152): if the call id has no
conversation, return with no API call and no map change; otherwise post
the closing message (best-effort, result discarded) and pop the mapping.
The second component is the `add_message` result when one was made. -/
def end_conversation (apiRes : ApiOut) (m : Reg) (call_sid : Str) :
    Reg × Option Bool :=
  match regGet m call_sid with
  | none => (m, none)
  | some cid =>
    if cid = 0 then (m, none)
    else (regPop m call_sid, some (add_message apiRes))

/-- Registry well-formedness: keys are pairwise distinct and no falsy
(zero) conversation id is stored.  `create_conversation` only ever stores
a truthy id, so this invariant holds for every reachable registry. -/
def regWF (m : Reg) : Prop := uniqKeys m ∧ ∀ p ∈ m, p.2 ≠ 0

instance : DecidablePred regWF := fun m =>
  inferInstanceAs (Decidable (uniqKeys m ∧ ∀ p ∈ m, p.2 ≠ 0))

/-! ### Trace ordering and oracle-independent projections -/

/-- No incoming Chatwoot log entry occurs in the trace. -/
def noIncAfter : Trace → Bool
  | [] => true
  | (Ev.msg Dir.incoming _, _) :: _ => false
  | _ :: t => noIncAfter t

/-- Every incoming Chatwoot log entry precedes every outgoing one: once
an outgoing entry has been sent, no further incoming entry appears. -/
def incBeforeOut : Trace → Bool
  | [] => true
  | (Ev.msg Dir.outgoing _, _) :: t => noIncAfter t
  | _ :: t => incBeforeOut t

/-- The (action, spoken-text) part of a Twilio-route turn, which depends
only on the transcript and the lookup/reply collaborators — never on the
Chatwoot message API. -/
def transcribeCore (lookup : Str → Option OrderRec) (support : Str → Str)
    (t : Str) : Action × Str :=
  if t.isEmpty then (.SILENT, [])
  else
    let tl := stripStr (lowerStr t)
    if escalationDetected tl then (.TRANSFER, connectMsg)
    else if stopDetected tl then (.HANGUP, goodbyeMsg)
    else
      let r := generate_order_reply lookup t
      let aiReply := if r.1.isEmpty then support t else r.1
      if aiReply.isEmpty then (.SILENT, []) else (.CONTINUE, aiReply)

/-- The response part of a VAPI `user_message` turn, likewise independent
of the Chatwoot message API. -/
def vapiCore (lookup : Str → Option OrderRec) (support : Str → Str)
    (rawText : Str) : VapiResp :=
  let transcript := stripStr rawText
  let tl := lowerStr transcript
  if !transcript.isEmpty && stopDetected tl then .endCall ("user_ended".data)
  else if !transcript.isEmpty && escalationDetected tl then
    .handoff ("user_requested_human".data)
  else
    let r := generate_order_reply lookup transcript
    .assistantResponse (if r.1.isEmpty then support transcript else r.1)

/-- The order record of end-to-end scenario 1: number `4521`, paid,
fulfilled, one tracking number `1Z999`. -/
def rec4521 : OrderRec :=
  { id := some ("4521".data)
    order_number := some ("4521".data)
    financial_status := some ("paid".data)
    fulfillment_status := some ("fulfilled".data)
    fulfillments := [["1Z999".data]] }

/-- The reply `generate_order_reply` synthesizes for `rec4521`. -/
def reply4521 : Str :=
  "I found order 4521. Payment status: paid Fulfillment: fulfilled Tracking: 1Z999".data

/-- A collaborator environment whose lookup knows exactly order 4521
(used to instantiate scenario-1 statements). -/
def cb4521 : Collab :=
  { lookup := fun oid => if oid = ("4521".data) then some rec4521 else none
    support := fun _ => []
    api := fun _ => .ok }

/-! ## Helper lemmas about the registry -/

theorem regGet_mapset (m : Reg) (k : Str) (v : Nat) :
    regGet (m.map (fun p => if p.1 = k then (k, v) else p)) k
      = if regHas m k then some v else none := by
  induction m with
  | nil => simp [regGet, regHas]
  | cons a m ih =>
    by_cases h : a.1 = k
    · simp [regGet, regHas, h]
    · simp [regGet, regHas, h, ih]

theorem regGet_appendone (m : Reg) (k : Str) (v : Nat) (h : regHas m k = false) :
    regGet (m ++ [(k, v)]) k = some v := by
  induction m with
  | nil => simp [regGet]
  | cons a m ih =>
    simp only [regHas, Bool.or_eq_false_iff, decide_eq_false_iff_not] at h
    simp [regGet, h.1, ih h.2]

theorem regGet_set_self (m : Reg) (k : Str) (v : Nat) :
    regGet (regSet m k v) k = some v := by
  unfold regSet
  by_cases hh : regHas m k
  · simp [hh, regGet_mapset]
  · simp only [hh, if_false, Bool.false_eq_true]
    exact regGet_appendone m k v (by simpa using hh)

theorem regGet_mapset_other (m : Reg) (k k' : Str) (v : Nat) (hk : k' ≠ k) :
    regGet (m.map (fun p => if p.1 = k then (k, v) else p)) k' = regGet m k' := by
  induction m with
  | nil => rfl
  | cons a m ih =>
    by_cases h : a.1 = k
    · have h1 : ¬(k = k') := fun hc => hk hc.symm
      have h2 : ¬(a.1 = k') := by rw [h]; exact h1
      simp [regGet, h, h1, h2, ih]
    · by_cases h' : a.1 = k'
      · simp only [List.map_cons, if_neg h]
        simp [regGet, h']
      · simp only [List.map_cons, if_neg h]
        simp [regGet, h', ih]

theorem regGet_appendone_other (m : Reg) (k k' : Str) (v : Nat) (hk : k' ≠ k) :
    regGet (m ++ [(k, v)]) k' = regGet m k' := by
  induction m with
  | nil =>
    have h : ¬(k = k') := fun hc => hk hc.symm
    simp [regGet, h]
  | cons a m ih =>
    by_cases h' : a.1 = k'
    · simp [regGet, h']
    · simp [regGet, h', ih]

theorem regGet_set_other (m : Reg) (k k' : Str) (v : Nat) (hk : k' ≠ k) :
    regGet (regSet m k v) k' = regGet m k' := by
  unfold regSet
  by_cases hh : regHas m k
  · simp [hh, regGet_mapset_other m k k' v hk]
  · simp [hh, regGet_appendone_other m k k' v hk]

theorem regHas_false_not_mem (m : Reg) (k : Str) (h : regHas m k = false) :
    k ∉ m.map (fun p : Str × Nat => p.1) := by
  induction m with
  | nil => simp
  | cons a m ih =>
    simp only [regHas, Bool.or_eq_false_iff, decide_eq_false_iff_not] at h
    simp only [List.map_cons, List.mem_cons]
    rintro (hc | hc)
    · exact h.1 hc.symm
    · exact ih h.2 hc

theorem keys_mapset (m : Reg) (k : Str) (v : Nat) :
    (m.map (fun p => if p.1 = k then (k, v) else p)).map (fun p : Str × Nat => p.1)
      = m.map (fun p : Str × Nat => p.1) := by
  induction m with
  | nil => rfl
  | cons a m ih =>
    by_cases h : a.1 = k
    · simp [h, ih]
    · simp [h, ih]

theorem regWF_set (m : Reg) (k : Str) (v : Nat) (h : regWF m) (hv : v ≠ 0) :
    regWF (regSet m k v) := by
  unfold regSet
  by_cases hh : regHas m k
  · simp only [hh, if_true]
    refine ⟨?_, ?_⟩
    · change uniqKeys _
      unfold uniqKeys
      rw [keys_mapset]
      exact h.1
    · intro p hp
      rcases List.mem_map.mp hp with ⟨q, hq, hpq⟩
      by_cases hqk : q.1 = k
      · rw [if_pos hqk] at hpq
        rw [← hpq]
        exact hv
      · rw [if_neg hqk] at hpq
        rw [← hpq]
        exact h.2 q hq
  · simp only [hh, if_false, Bool.false_eq_true]
    refine ⟨?_, ?_⟩
    · unfold uniqKeys
      rw [List.map_append]
      simp only [List.map_cons, List.map_nil]
      rw [List.nodup_append]
      exact ⟨h.1, List.nodup_singleton k,
        by
          intro x hx hy
          simp only [List.mem_singleton] at hy
          exact regHas_false_not_mem m k (by simpa using hh) (hy ▸ hx)⟩
    · intro p hp
      rcases List.mem_append.mp hp with hp | hp
      · exact h.2 p hp
      · simp only [List.mem_singleton] at hp
        rw [hp]
        exact hv

theorem regPop_subset (m : Reg) (k : Str) (p : Str × Nat) (hp : p ∈ regPop m k) :
    p ∈ m := by
  induction m with
  | nil => simp [regPop] at hp
  | cons a m ih =>
    unfold regPop at hp
    by_cases h : a.1 = k
    · rw [if_pos h] at hp
      exact List.mem_cons_of_mem a hp
    · rw [if_neg h] at hp
      rcases List.mem_cons.mp hp with hp | hp
      · exact hp ▸ List.mem_cons_self a m
      · exact List.mem_cons_of_mem a (ih hp)

theorem regGet_none_not_mem (m : Reg) (k : Str)
    (h : k ∉ m.map (fun p : Str × Nat => p.1)) : regGet m k = none := by
  induction m with
  | nil => rfl
  | cons a m ih =>
    simp only [List.map_cons, List.mem_cons] at h
    push_neg at h
    have ha : ¬(a.1 = k) := fun hc => h.1 hc.symm
    simp [regGet, ha, ih h.2]

theorem regWF_pop (m : Reg) (k : Str) (h : regWF m) : regWF (regPop m k) := by
  refine ⟨?_, fun p hp => h.2 p (regPop_subset m k p hp)⟩
  induction m with
  | nil => exact h.1
  | cons a m ih =>
    have h1 : a.1 ∉ m.map (fun p : Str × Nat => p.1) := by
      have := h.1
      simp only [uniqKeys, List.map_cons, List.nodup_cons] at this
      exact this.1
    have h2 : uniqKeys m := by
      have := h.1
      simp only [uniqKeys, List.map_cons, List.nodup_cons] at this
      exact this.2
    unfold regPop
    by_cases hk : a.1 = k
    · rw [if_pos hk]
      exact h2
    · rw [if_neg hk]
      unfold uniqKeys
      simp only [List.map_cons, List.nodup_cons]
      refine ⟨?_, ih ⟨h2, fun p hp => h.2 p (List.mem_cons_of_mem a hp)⟩⟩
      intro hc
      rcases List.mem_map.mp hc with ⟨q, hq, hqa⟩
      exact h1 (List.mem_map.mpr ⟨q, regPop_subset m k q hq, hqa⟩)

theorem regGet_pop_self (m : Reg) (k : Str) (hu : uniqKeys m) :
    regGet (regPop m k) k = none := by
  induction m with
  | nil => rfl
  | cons a m ih =>
    have h1 : a.1 ∉ m.map (fun p : Str × Nat => p.1) := by
      simp only [uniqKeys, List.map_cons, List.nodup_cons] at hu
      exact hu.1
    have h2 : uniqKeys m := by
      simp only [uniqKeys, List.map_cons, List.nodup_cons] at hu
      exact hu.2
    unfold regPop
    by_cases hk : a.1 = k
    · rw [if_pos hk]
      exact regGet_none_not_mem m k (hk ▸ h1)
    · rw [if_neg hk]
      simp [regGet, hk, ih h2]

theorem regGet_pop_other (m : Reg) (k k' : Str) (hk : k' ≠ k) :
    regGet (regPop m k) k' = regGet m k' := by
  induction m with
  | nil => rfl
  | cons a m ih =>
    unfold regPop
    by_cases h : a.1 = k
    · rw [if_pos h]
      have : ¬(a.1 = k') := by rw [h]; exact fun hc => hk hc.symm
      simp [regGet, this]
    · rw [if_neg h]
      by_cases h' : a.1 = k'
      · simp [regGet, h']
      · simp [regGet, h', ih]

theorem regGet_some_mem (m : Reg) (k : Str) (v : Nat) (h : regGet m k = some v) :
    (k, v) ∈ m := by
  induction m with
  | nil => exact absurd h (by simp [regGet])
  | cons a m ih =>
    unfold regGet at h
    by_cases hk : a.1 = k
    · rw [if_pos hk] at h
      have ha : a = (k, v) := by
        rcases a with ⟨a1, a2⟩
        simp only at hk
        simp only [Option.some.injEq] at h
        rw [hk, h]
      exact List.mem_cons.mpr (Or.inl ha.symm)
    · rw [if_neg hk] at h
      exact List.mem_cons_of_mem a (ih h)

/-! ## Claim theorems -/

/-- C1 counterexample: the utterance "no agent" matches a Stop phrase
(whole-word "no"), yet on the Twilio transcribe route the turn is
Escalate (TRANSFER), because that route checks escalation before stop.
This refutes "Stop is decided before the Escalate … checks in every
processing route". -/
theorem C1_counterexample :
    stopDetected (stripStr (lowerStr ("no agent".data))) = true ∧
    (transcribeRoute cbNull (some ("CA1".data)) ("no agent".data)).action = .TRANSFER ∧
    (transcribeRoute cbNull (some ("CA1".data)) ("no agent".data)).action ≠ .HANGUP := by
  decide

/-- C3 counterexample: on the VAPI route an empty utterance is NOT a
silent turn: the route has no silent branch, so it proceeds to reply
generation, returns an `assistant_response` (action CONTINUE, not
SILENT), records an outgoing log entry, and never invokes the
close/end operation with reason "silence". -/
theorem C3_counterexample :
    (vapiUserMessage cbNull (some ("C1".data)) []).resp = .assistantResponse [] ∧
    VapiResp.action (vapiUserMessage cbNull (some ("C1".data)) []).resp ≠ .SILENT ∧
    (vapiUserMessage cbNull (some ("C1".data)) []).trace.map Prod.fst
      = [Ev.msg .outgoing ("Agent: ".data)] := by
  decide

/-- C4 counterexample: on the VAPI route the utterance "Goodbye" ends the
call with an `end_call` payload that carries no spoken text at all, so
the claimed spoken_text "Goodbye. Have a great day." is not produced on
every processing route. -/
theorem C4_counterexample :
    (vapiUserMessage cbNull (some ("C2".data)) ("Goodbye".data)).resp
      = .endCall ("user_ended".data) ∧
    VapiResp.spoken (vapiUserMessage cbNull (some ("C2".data)) ("Goodbye".data)).resp
      ≠ goodbyeMsg := by
  decide

/-- C6 counterexample: on the VAPI route the escalation utterance
"I want to talk to a human" yields a `handoff` payload with no spoken
text, so the claimed spoken_text "Connecting you to a human agent.
Please hold." is not produced there. -/
theorem C6_counterexample :
    (vapiUserMessage cbNull (some ("C3".data)) ("I want to talk to a human".data)).resp
      = .handoff ("user_requested_human".data) ∧
    VapiResp.spoken
        ((vapiUserMessage cbNull (some ("C3".data)) ("I want to talk to a human".data)).resp)
      ≠ connectMsg := by
  decide

theorem gor_nil (lookup : Str → Option OrderRec) :
    generate_order_reply lookup [] = ([], .noLookup, []) := rfl

/-- C1 (amended): Stop precedence holds per route as follows.  On the
VAPI route Stop has highest precedence: any utterance whose normalized
text matches a Stop phrase yields the `end_call` turn regardless of any
escalation substring.  On the Twilio transcribe route escalation is
checked first: a Stop utterance yields HANGUP only when no escalation
substring is present, and any utterance containing an escalation
substring yields TRANSFER even when a Stop phrase also matches. -/
theorem C1_stop_precedence_by_route :
    (∀ cb sid t, stopDetected (lowerStr (stripStr t)) = true →
       (vapiUserMessage cb sid t).resp = .endCall ("user_ended".data)) ∧
    (∀ cb sid t, stopDetected (stripStr (lowerStr t)) = true →
       escalationDetected (stripStr (lowerStr t)) = false →
       (transcribeRoute cb sid t).action = .HANGUP) ∧
    (∀ cb sid t, escalationDetected (stripStr (lowerStr t)) = true →
       (transcribeRoute cb sid t).action = .TRANSFER) := by
  refine ⟨?_, ?_, ?_⟩
  · intro cb sid t h
    have hne : (stripStr t).isEmpty = false := by
      cases hstrip : stripStr t with
      | nil => rw [hstrip] at h; exact absurd h (by decide)
      | cons c cs => simp [hstrip]
    unfold vapiUserMessage
    simp [hne, h]
  · intro cb sid t hs he
    have hne : t.isEmpty = false := by
      cases t with
      | nil => exact absurd hs (by decide)
      | cons c cs => rfl
    unfold transcribeRoute
    simp [hne, he, hs]
  · intro cb sid t he
    have hne : t.isEmpty = false := by
      cases t with
      | nil => exact absurd he (by decide)
      | cons c cs => rfl
    unfold transcribeRoute
    simp [hne, he]

/-- C1 witness: "Goodbye" stops on both routes; "agent please" transfers
on the transcribe route. -/
theorem C1_witness :
    (vapiUserMessage cbNull (some ("W1".data)) ("Goodbye".data)).resp
      = .endCall ("user_ended".data) ∧
    (transcribeRoute cbNull (some ("W1".data)) ("Goodbye".data)).action = .HANGUP ∧
    (transcribeRoute cbNull (some ("W1".data)) ("agent please".data)).action
      = .TRANSFER :=
  ⟨C1_stop_precedence_by_route.1 cbNull (some ("W1".data)) ("Goodbye".data) (by decide),
   C1_stop_precedence_by_route.2.1 cbNull (some ("W1".data)) ("Goodbye".data)
     (by decide) (by decide),
   C1_stop_precedence_by_route.2.2 cbNull (some ("W1".data)) ("agent please".data)
     (by decide)⟩

/-- C3 (amended): on the Twilio transcribe route a raw-empty transcript
yields SILENT with empty spoken text and no log entries, invoking the
close/end operation exactly once with reason "silence" when a call sid is
present (and doing nothing at all without one).  The VAPI route has no
silent branch: an utterance that is empty after stripping proceeds to
reply generation, returns an `assistant_response`, and records an
outgoing log entry instead. -/
theorem C3_silent_turn_by_route :
    (∀ cb sid, truthyOpt sid = true →
       transcribeRoute cb sid [] =
         ⟨.SILENT, [],
          [(Ev.endConv ("silence".data),
            add_message (cb.api (Ev.endConv ("silence".data))))]⟩) ∧
    (∀ cb, transcribeRoute cb none [] = ⟨.SILENT, [], []⟩) ∧
    (∀ cb sid t, truthyOpt sid = true → stripStr t = [] →
       (vapiUserMessage cb sid t).resp = .assistantResponse (cb.support []) ∧
       (vapiUserMessage cb sid t).trace.map Prod.fst
         = [Ev.msg .outgoing ("Agent: ".data ++ cb.support [])]) := by
  refine ⟨?_, ?_, ?_⟩
  · intro cb sid hsid
    unfold transcribeRoute
    simp [hsid, doEnd]
  · intro cb
    unfold transcribeRoute
    simp [truthyOpt]
  · intro cb sid t hsid hstrip
    unfold vapiUserMessage
    simp [hstrip, hsid, gor_nil, doMsg, doLooks]

/-- C3 witness: concrete empty turns on both routes. -/
theorem C3_witness :
    transcribeRoute cbNull (some ("W3".data)) []
      = ⟨.SILENT, [], [(Ev.endConv ("silence".data), true)]⟩ ∧
    transcribeRoute cbNull none [] = ⟨.SILENT, [], []⟩ ∧
    (vapiUserMessage cbNull (some ("W3".data)) ("  ".data)).resp
      = .assistantResponse (cbNull.support []) :=
  ⟨C3_silent_turn_by_route.1 cbNull (some ("W3".data)) (by decide),
   C3_silent_turn_by_route.2.1 cbNull,
   (C3_silent_turn_by_route.2.2 cbNull (some ("W3".data)) ("  ".data)
     (by decide) (by decide)).1⟩

/-- C4 (amended): a Stop turn hangs up with the goodbye line only on the
Twilio transcribe route (and there only when no escalation substring
preempts it); the outgoing log entry is "Call ended: user ended" (the
claim's text up to letter case) and the close/end operation is requested
exactly once with reason "user ended" on both routes.  On the VAPI route
the Stop turn is the `end_call reason=user_ended` payload, which carries
no spoken text. -/
theorem C4_stop_turn_by_route :
    (∀ cb sid t, truthyOpt sid = true →
       stopDetected (stripStr (lowerStr t)) = true →
       escalationDetected (stripStr (lowerStr t)) = false →
       (transcribeRoute cb sid t).action = .HANGUP ∧
       (transcribeRoute cb sid t).spoken = goodbyeMsg ∧
       (transcribeRoute cb sid t).trace.map Prod.fst
         = [Ev.msg .incoming ("User: ".data ++ t),
            Ev.msg .outgoing stopOutLog,
            Ev.endConv ("user ended".data)]) ∧
    (∀ cb sid t, truthyOpt sid = true →
       stopDetected (lowerStr (stripStr t)) = true →
       (vapiUserMessage cb sid t).resp = .endCall ("user_ended".data) ∧
       VapiResp.spoken ((vapiUserMessage cb sid t).resp) = [] ∧
       (vapiUserMessage cb sid t).trace.map Prod.fst
         = [Ev.msg .incoming ("User: ".data ++ stripStr t),
            Ev.msg .outgoing stopOutLog,
            Ev.endConv ("user ended".data)]) ∧
    containsL ("call ended: user ended".data) (lowerStr stopOutLog) = true := by
  refine ⟨?_, ?_, by decide⟩
  · intro cb sid t hsid hs he
    have hne : t.isEmpty = false := by
      cases t with
      | nil => exact absurd hs (by decide)
      | cons c cs => rfl
    unfold transcribeRoute
    simp [hne, he, hs, hsid, doMsg, doEnd]
  · intro cb sid t hsid hs
    have hne : (stripStr t).isEmpty = false := by
      cases hstrip : stripStr t with
      | nil => rw [hstrip] at hs; exact absurd hs (by decide)
      | cons c cs => simp [hstrip]
    unfold vapiUserMessage
    simp [hne, hs, hsid, doMsg, doEnd, VapiResp.spoken]

/-- C4 witness: the concrete Stop turn "Goodbye" on both routes. -/
theorem C4_witness :
    (transcribeRoute cbNull (some ("W4".data)) ("Goodbye".data)).action = .HANGUP ∧
    (transcribeRoute cbNull (some ("W4".data)) ("Goodbye".data)).spoken = goodbyeMsg ∧
    (vapiUserMessage cbNull (some ("W4".data)) ("Goodbye".data)).resp
      = .endCall ("user_ended".data) :=
  ⟨(C4_stop_turn_by_route.1 cbNull (some ("W4".data)) ("Goodbye".data)
      (by decide) (by decide) (by decide)).1,
   (C4_stop_turn_by_route.1 cbNull (some ("W4".data)) ("Goodbye".data)
      (by decide) (by decide) (by decide)).2.1,
   (C4_stop_turn_by_route.2.1 cbNull (some ("W4".data)) ("Goodbye".data)
      (by decide) (by decide)).1⟩

/-- C6 (amended): an escalation utterance produces the TRANSFER turn with
the "Connecting you to a human agent. Please hold." line on the Twilio
transcribe route (where escalation is checked first, so no Stop condition
is needed), and the `handoff` payload — with the same two log entries but
no spoken text — on the VAPI route (where Stop is checked first).  In
both cases the incoming escalation entry precedes the outgoing transfer
notice, and the code's log texts contain the claim's phrases up to letter
case. -/
theorem C6_escalation_turn_by_route :
    (∀ cb sid t, truthyOpt sid = true →
       escalationDetected (stripStr (lowerStr t)) = true →
       (transcribeRoute cb sid t).action = .TRANSFER ∧
       (transcribeRoute cb sid t).spoken = connectMsg ∧
       (transcribeRoute cb sid t).trace.map Prod.fst
         = [Ev.msg .incoming ("User: ".data ++ t),
            Ev.msg .incoming escIncLog,
            Ev.msg .outgoing escOutLog]) ∧
    (∀ cb sid t, truthyOpt sid = true →
       stopDetected (lowerStr (stripStr t)) = false →
       escalationDetected (lowerStr (stripStr t)) = true →
       (vapiUserMessage cb sid t).resp = .handoff ("user_requested_human".data) ∧
       VapiResp.spoken ((vapiUserMessage cb sid t).resp) = [] ∧
       (vapiUserMessage cb sid t).trace.map Prod.fst
         = [Ev.msg .incoming ("User: ".data ++ stripStr t),
            Ev.msg .incoming escIncLog,
            Ev.msg .outgoing escOutLog]) ∧
    containsL ("user requested escalation".data) (lowerStr escIncLog) = true ∧
    containsL ("escalation requested; transferring".data) (lowerStr escOutLog) = true := by
  refine ⟨?_, ?_, by decide, by decide⟩
  · intro cb sid t hsid he
    have hne : t.isEmpty = false := by
      cases t with
      | nil => exact absurd he (by decide)
      | cons c cs => rfl
    unfold transcribeRoute
    simp [hne, he, hsid, doMsg]
  · intro cb sid t hsid hstop he
    have hne : (stripStr t).isEmpty = false := by
      cases hstrip : stripStr t with
      | nil => rw [hstrip] at he; exact absurd he (by decide)
      | cons c cs => simp [hstrip]
    unfold vapiUserMessage
    simp [hne, hstop, he, hsid, doMsg, VapiResp.spoken]

/-- C6 witness: the concrete escalation turn "I want to talk to a human"
on both routes. -/
theorem C6_witness :
    (transcribeRoute cbNull (some ("W6".data)) ("I want to talk to a human".data)).action
      = .TRANSFER ∧
    (transcribeRoute cbNull (some ("W6".data)) ("I want to talk to a human".data)).spoken
      = connectMsg ∧
    (vapiUserMessage cbNull (some ("W6".data)) ("I want to talk to a human".data)).resp
      = .handoff ("user_requested_human".data) :=
  ⟨(C6_escalation_turn_by_route.1 cbNull (some ("W6".data))
      ("I want to talk to a human".data) (by decide) (by decide)).1,
   (C6_escalation_turn_by_route.1 cbNull (some ("W6".data))
      ("I want to talk to a human".data) (by decide) (by decide)).2.1,
   (C6_escalation_turn_by_route.2.1 cbNull (some ("W6".data))
      ("I want to talk to a human".data) (by decide) (by decide) (by decide)).1⟩

/-- C7: end-to-end scenario 1.  For the utterance
"Where is my order #4521" the extracted id is "4521"; when the lookup
collaborator returns the paid/fulfilled record `rec4521` with tracking
"1Z999", the spoken reply contains "4521", "paid", "fulfilled" and
"1Z999", and the action is CONTINUE. -/
theorem C7_order_scenario (cb : Collab) (sid : Option Str)
    (hl : cb.lookup ("4521".data) = some rec4521) :
    (transcribeRoute cb sid ("Where is my order #4521".data)).action = .CONTINUE ∧
    (transcribeRoute cb sid ("Where is my order #4521".data)).spoken = reply4521 ∧
    containsL ("4521".data) reply4521 = true ∧
    containsL ("paid".data) reply4521 = true ∧
    containsL ("fulfilled".data) reply4521 = true ∧
    containsL ("1Z999".data) reply4521 = true ∧
    extractOrderId ("Where is my order #4521".data) = some ("4521".data) := by
  have h1 : orderIntent (lowerStr ("Where is my order #4521".data)) = true := by decide
  have h2 : extractOrderId ("Where is my order #4521".data) = some ("4521".data) := by
    decide
  have hgor : generate_order_reply cb.lookup ("Where is my order #4521".data)
      = (reply4521, .found ("4521".data) rec4521, [("4521".data)]) := by
    simp only [generate_order_reply, h1, h2, hl, Bool.not_true, Bool.false_eq_true,
      if_false]
    decide
  have h3 : ("Where is my order #4521".data : Str).isEmpty = false := by decide
  have h4 : escalationDetected (stripStr (lowerStr ("Where is my order #4521".data)))
      = false := by decide
  have h5 : stopDetected (stripStr (lowerStr ("Where is my order #4521".data)))
      = false := by decide
  have h6 : reply4521.isEmpty = false := by decide
  refine ⟨?_, ?_, by decide, by decide, by decide, by decide, h2⟩ <;>
    (unfold transcribeRoute; simp [h3, h4, h5, hgor, h6])

/-- C7 witness: the scenario run against a concrete collaborator that
knows order 4521. -/
theorem C7_witness :
    (transcribeRoute cb4521 (some ("W7".data)) ("Where is my order #4521".data)).action
      = .CONTINUE ∧
    (transcribeRoute cb4521 (some ("W7".data)) ("Where is my order #4521".data)).spoken
      = reply4521 :=
  ⟨(C7_order_scenario cb4521 (some ("W7".data)) (by decide)).1,
   (C7_order_scenario cb4521 (some ("W7".data)) (by decide)).2.1⟩

@[simp] theorem incBeforeOut_nil : incBeforeOut [] = true := rfl

@[simp] theorem noIncAfter_nil : noIncAfter [] = true := rfl

@[simp] theorem incBeforeOut_cons_inc (s : Str) (b : Bool) (t : Trace) :
    incBeforeOut ((Ev.msg .incoming s, b) :: t) = incBeforeOut t := rfl

@[simp] theorem incBeforeOut_cons_out (s : Str) (b : Bool) (t : Trace) :
    incBeforeOut ((Ev.msg .outgoing s, b) :: t) = noIncAfter t := rfl

@[simp] theorem incBeforeOut_cons_end (r : Str) (b : Bool) (t : Trace) :
    incBeforeOut ((Ev.endConv r, b) :: t) = incBeforeOut t := rfl

@[simp] theorem incBeforeOut_cons_look (o : Str) (b : Bool) (t : Trace) :
    incBeforeOut ((Ev.lookupCall o, b) :: t) = incBeforeOut t := rfl

@[simp] theorem noIncAfter_cons_out (s : Str) (b : Bool) (t : Trace) :
    noIncAfter ((Ev.msg .outgoing s, b) :: t) = noIncAfter t := rfl

@[simp] theorem noIncAfter_cons_end (r : Str) (b : Bool) (t : Trace) :
    noIncAfter ((Ev.endConv r, b) :: t) = noIncAfter t := rfl

@[simp] theorem noIncAfter_cons_look (o : Str) (b : Bool) (t : Trace) :
    noIncAfter ((Ev.lookupCall o, b) :: t) = noIncAfter t := rfl

@[simp] theorem incBeforeOut_looks (lks : List Str) (rest : Trace) :
    incBeforeOut (lks.map (fun o => (Ev.lookupCall o, true)) ++ rest)
      = incBeforeOut rest := by
  induction lks with
  | nil => rfl
  | cons a l ih =>
    simp only [List.map_cons, List.cons_append, incBeforeOut_cons_look]
    exact ih

@[simp] theorem incBeforeOut_looks_end (lks : List Str) :
    incBeforeOut (lks.map (fun o => (Ev.lookupCall o, true))) = true := by
  induction lks with
  | nil => rfl
  | cons a l ih =>
    simp only [List.map_cons, incBeforeOut_cons_look]
    exact ih

theorem transcribeRoute_core (cb : Collab) (sid : Option Str) (t : Str) :
    (transcribeRoute cb sid t).action = (transcribeCore cb.lookup cb.support t).1 ∧
    (transcribeRoute cb sid t).spoken = (transcribeCore cb.lookup cb.support t).2 := by
  unfold transcribeRoute transcribeCore
  by_cases h0 : t.isEmpty
  · simp [h0]
  · by_cases h1 : escalationDetected (stripStr (lowerStr t))
    · simp [h0, h1]
    · by_cases h2 : stopDetected (stripStr (lowerStr t))
      · simp [h0, h1, h2]
      · by_cases h3 : (if (generate_order_reply cb.lookup t).1 = [] then cb.support t
            else (generate_order_reply cb.lookup t).1) = []
        · simp [h0, h1, h2, h3]
        · simp [h0, h1, h2, h3]

theorem vapiUserMessage_core (cb : Collab) (sid : Option Str) (t : Str) :
    (vapiUserMessage cb sid t).resp = vapiCore cb.lookup cb.support t := by
  unfold vapiUserMessage vapiCore
  by_cases h0 : (stripStr t).isEmpty
  · simp [h0]
  · by_cases h1 : stopDetected (lowerStr (stripStr t))
    · simp [h0, h1]
    · by_cases h2 : escalationDetected (lowerStr (stripStr t))
      · simp [h0, h1, h2]
      · simp [h0, h1, h2]

/-- C8: the turn's action and spoken text are identical under every
outcome of the ticket-logging collaborator — on both routes the
(action, spoken) part of the result is a function of the transcript and
the lookup/reply collaborators only, for any two message-API oracles
(`add_message` itself swallows non-2xx responses and exceptions,
returning a boolean the routes discard, and never raises: it is a total
function here); and in every turn's trace each incoming log entry is
sent before every outgoing one. -/
theorem C8_logging_isolated :
    (∀ (lookup : Str → Option OrderRec) (support : Str → Str) (a₁ a₂ : Ev → ApiOut)
       (sid : Option Str) (t : Str),
       (transcribeRoute ⟨lookup, support, a₁⟩ sid t).action
         = (transcribeRoute ⟨lookup, support, a₂⟩ sid t).action ∧
       (transcribeRoute ⟨lookup, support, a₁⟩ sid t).spoken
         = (transcribeRoute ⟨lookup, support, a₂⟩ sid t).spoken ∧
       (vapiUserMessage ⟨lookup, support, a₁⟩ sid t).resp
         = (vapiUserMessage ⟨lookup, support, a₂⟩ sid t).resp) ∧
    (∀ cb sid t, incBeforeOut (transcribeRoute cb sid t).trace = true ∧
                 incBeforeOut (vapiUserMessage cb sid t).trace = true) := by
  constructor
  · intro lookup support a₁ a₂ sid t
    refine ⟨?_, ?_, ?_⟩
    · rw [(transcribeRoute_core ⟨lookup, support, a₁⟩ sid t).1,
          (transcribeRoute_core ⟨lookup, support, a₂⟩ sid t).1]
    · rw [(transcribeRoute_core ⟨lookup, support, a₁⟩ sid t).2,
          (transcribeRoute_core ⟨lookup, support, a₂⟩ sid t).2]
    · rw [vapiUserMessage_core ⟨lookup, support, a₁⟩ sid t,
          vapiUserMessage_core ⟨lookup, support, a₂⟩ sid t]
  · intro cb sid t
    constructor
    · unfold transcribeRoute
      by_cases h0 : t.isEmpty
      · by_cases hsid : truthyOpt sid <;> simp [h0, hsid, doEnd]
      · by_cases h1 : escalationDetected (stripStr (lowerStr t))
        · by_cases hsid : truthyOpt sid <;> simp [h0, h1, hsid, doMsg]
        · by_cases h2 : stopDetected (stripStr (lowerStr t))
          · by_cases hsid : truthyOpt sid <;> simp [h0, h1, h2, hsid, doMsg, doEnd]
          · by_cases hr : (generate_order_reply cb.lookup t).1 = []
            · by_cases hsup : cb.support t = [] <;>
                by_cases hsid : truthyOpt sid <;>
                simp [h0, h1, h2, hr, hsup, hsid, doMsg, doLooks]
            · by_cases hsid : truthyOpt sid <;>
                simp [h0, h1, h2, hr, hsid, doMsg, doLooks]
    · unfold vapiUserMessage
      by_cases h0 : (stripStr t).isEmpty
      · by_cases hr : (generate_order_reply cb.lookup (stripStr t)).1 = [] <;>
          cases hinfo : (generate_order_reply cb.lookup (stripStr t)).2.1 <;>
          by_cases hsid : truthyOpt sid <;>
          simp [h0, hr, hinfo, hsid, doMsg, doLooks]
      · by_cases h1 : stopDetected (lowerStr (stripStr t))
        · by_cases hsid : truthyOpt sid <;> simp [h0, h1, hsid, doMsg, doEnd]
        · by_cases h2 : escalationDetected (lowerStr (stripStr t))
          · by_cases hsid : truthyOpt sid <;> simp [h0, h1, h2, hsid, doMsg]
          · by_cases hr : (generate_order_reply cb.lookup (stripStr t)).1 = [] <;>
              cases hinfo : (generate_order_reply cb.lookup (stripStr t)).2.1 <;>
              by_cases hsid : truthyOpt sid <;>
              simp [h0, h1, h2, hr, hinfo, hsid, doMsg, doLooks]

/-- C5: order-identifier extraction tries the three patterns `#\d+`,
`order … token`, bare 5+-digit run in this fixed priority order and the
first success wins; in particular whenever the `#`-pattern matches, its
digits are the extracted id (so a bare digit run elsewhere is ignored),
and when no pattern matches the id is absent (`extractOrderId` returns
whatever the last pattern returns, `none` included). -/
theorem C5_extraction_priority (t : Str) :
    (∀ d, findHash t = some d → extractOrderId t = some d) ∧
    (findHash t = none → ∀ tok, findOrderTok t = some tok → extractOrderId t = some tok) ∧
    (findHash t = none → findOrderTok t = none → extractOrderId t = findDigits5 t) := by
  unfold extractOrderId
  refine ⟨?_, ?_, ?_⟩
  · intro d h
    rw [h]
  · intro h1 tok h2
    rw [h1, h2]
  · intro h1 h2
    rw [h1, h2]

/-- C5 witness: a text containing both `#123` and the bare 6-digit run
`123456` extracts `123`, not the bare run; and a no-pattern text yields
no id. -/
theorem C5_witness :
    findHash ("order status for 123456 and #123".data) = some ("123".data) ∧
    findDigits5 ("order status for 123456 and #123".data) = some ("123456".data) ∧
    extractOrderId ("order status for 123456 and #123".data) = some ("123".data) ∧
    extractOrderId ("where is my order".data) = none :=
  ⟨by decide, by decide,
   (C5_extraction_priority ("order status for 123456 and #123".data)).1
     ("123".data) (by decide),
   by decide⟩

/-- C9: the registry keeps at most one conversation entry per call id
(well-formedness is preserved by `create_conversation` and
`end_conversation`); a second successful `create_conversation` for an
already-present call id replaces the prior entry in place and leaves all
other call ids untouched; after `end_conversation` the call id resolves
to nothing; and a subsequent `create_conversation` for the same id
installs exactly the fresh conversation id with no residual state. -/
theorem C9_registry_single_session :
    (∀ m k v, regWF m → regWF (create_conversation v m k).1) ∧
    (∀ m k r, regWF m → regWF (end_conversation r m k).1) ∧
    (∀ m k cid, regWF m → cid ≠ 0 → ¬k.isEmpty →
       regGet (create_conversation (some cid) m k).1 k = some cid ∧
       ∀ k', k' ≠ k → regGet (create_conversation (some cid) m k).1 k' = regGet m k') ∧
    (∀ m k r, regWF m → regGet (end_conversation r m k).1 k = none) ∧
    (∀ m k r cid, regWF m → cid ≠ 0 → ¬k.isEmpty →
       regGet (create_conversation (some cid) (end_conversation r m k).1 k).1 k = some cid ∧
       ∀ k', k' ≠ k →
         regGet (create_conversation (some cid) (end_conversation r m k).1 k).1 k'
           = regGet m k') := by
  have hend : ∀ (m : Reg) (k : Str) (r : ApiOut), regWF m →
      (end_conversation r m k).1 = m ∨ (end_conversation r m k).1 = regPop m k := by
    intro m k r h
    cases hg : regGet m k with
    | none => left; simp [end_conversation, hg]
    | some cid =>
      have hc : cid ≠ 0 := h.2 (k, cid) (regGet_some_mem m k cid hg)
      right
      simp [end_conversation, hg, hc]
  refine ⟨?_, ?_, ?_, ?_, ?_⟩
  · intro m k v h
    cases v with
    | none => exact h
    | some cid =>
      by_cases hc : cid ≠ 0 ∧ ¬k.isEmpty
      · simp only [create_conversation]
        rw [if_pos hc]
        exact regWF_set m k cid h hc.1
      · simp only [create_conversation]
        rw [if_neg hc]
        exact h
  · intro m k r h
    rcases hend m k r h with h1 | h1
    · rw [h1]; exact h
    · rw [h1]; exact regWF_pop m k h
  · intro m k cid _ hc hk
    simp only [create_conversation]
    rw [if_pos ⟨hc, hk⟩]
    exact ⟨regGet_set_self m k cid, fun k' hk' => regGet_set_other m k k' cid hk'⟩
  · intro m k r h
    cases hg : regGet m k with
    | none => simp [end_conversation, hg]
    | some cid =>
      have hc : cid ≠ 0 := h.2 (k, cid) (regGet_some_mem m k cid hg)
      simp only [end_conversation, hg, if_neg hc]
      exact regGet_pop_self m k h.1
  · intro m k r cid h hc hk
    rcases hend m k r h with h1 | h1 <;> rw [h1]
    · simp only [create_conversation]
      rw [if_pos ⟨hc, hk⟩]
      exact ⟨regGet_set_self m k cid, fun k' hk' => regGet_set_other m k k' cid hk'⟩
    · simp only [create_conversation]
      rw [if_pos ⟨hc, hk⟩]
      refine ⟨regGet_set_self (regPop m k) k cid, fun k' hk' => ?_⟩
      rw [regGet_set_other (regPop m k) k k' cid hk']
      exact regGet_pop_other m k k' hk'

/-- C9 witness: concrete create/replace/end/recreate run on a one-entry
registry. -/
theorem C9_witness :
    regWF ((create_conversation (some 7) [(("A".data), 3)] ("A".data)).1) ∧
    regGet (create_conversation (some 7) [(("A".data), 3)] ("A".data)).1 ("A".data)
      = some 7 ∧
    regGet (end_conversation .ok [(("A".data), 3)] ("A".data)).1 ("A".data) = none ∧
    regGet (create_conversation (some 9)
        (end_conversation .ok [(("A".data), 3)] ("A".data)).1 ("A".data)).1 ("A".data)
      = some 9 :=
  ⟨C9_registry_single_session.1 [(("A".data), 3)] ("A".data) (some 7) (by decide),
   (C9_registry_single_session.2.2.1 [(("A".data), 3)] ("A".data) 7
      (by decide) (by decide) (by decide)).1,
   C9_registry_single_session.2.2.2.1 [(("A".data), 3)] ("A".data) .ok (by decide),
   (C9_registry_single_session.2.2.2.2 [(("A".data), 3)] ("A".data) .ok 9
      (by decide) (by decide) (by decide)).1⟩

/-- C10: for a call id absent from the registry, `end_conversation`
returns without invoking the message API and without modifying the
registry, and `add_message_for_call` returns `False` without invoking
the API; ending the same call twice is a harmless no-op the second
time. -/
theorem C10_absent_call_noop :
    (∀ m k r, regGet m k = none → end_conversation r m k = (m, none)) ∧
    (∀ m k a, regGet m k = none → add_message_for_call a m k = (false, false)) ∧
    (∀ m k r₁ r₂, uniqKeys m →
       end_conversation r₂ (end_conversation r₁ m k).1 k
         = ((end_conversation r₁ m k).1, none)) := by
  refine ⟨?_, ?_, ?_⟩
  · intro m k r h
    simp [end_conversation, h]
  · intro m k a h
    simp [add_message_for_call, h]
  · intro m k r₁ r₂ hu
    cases hg : regGet m k with
    | none => simp [end_conversation, hg]
    | some cid =>
      by_cases hc : cid = 0
      · simp [end_conversation, hg, hc]
      · simp only [end_conversation, hg, if_neg hc]
        have h2 : regGet (regPop m k) k = none := regGet_pop_self m k hu
        simp [end_conversation, h2]

/-- C10 witness: concrete absent-id calls and a concrete double end. -/
theorem C10_witness :
    end_conversation .ok [] ("B".data) = ([], none) ∧
    add_message_for_call .ok [] ("B".data) = (false, false) ∧
    end_conversation .ok (end_conversation .ok [(("B".data), 2)] ("B".data)).1 ("B".data)
      = ((end_conversation .ok [(("B".data), 2)] ("B".data)).1, none) :=
  ⟨C10_absent_call_noop.1 [] ("B".data) .ok rfl,
   C10_absent_call_noop.2.1 [] ("B".data) .ok rfl,
   C10_absent_call_noop.2.2 [(("B".data), 2)] ("B".data) .ok .ok (by decide)⟩

/-- C2: code bug.  For the utterance "order status" the claim (and the
spec's scenario 2) says no order id is extractable, the fixed
ask-for-number prompt is spoken, "asked customer for order number" is
logged, and no lookup collaborator call is made.  The code instead
extracts the token "status" via the `order(?: number| no\.?| #)?…`
pattern, invokes the lookup collaborator with it, speaks the
couldn't-find reply, and logs "Order lookup attempted for status, not
found".  This theorem evaluates the embedded code at the failing input
(lookup collaborator finding nothing). -/
theorem C2_order_status_bug :
    generate_order_reply (fun _ => none) ("order status".data)
      = (notFoundMsg, .notFound ("status".data), [("status".data)]) ∧
    extractOrderId ("order status".data) = some ("status".data) ∧
    notFoundMsg ≠ askMsg ∧
    (transcribeRoute cbNull (some ("CA1".data)) ("order status".data)).trace.map Prod.fst
      = [Ev.msg .incoming ("User: order status".data),
         Ev.lookupCall ("status".data),
         Ev.msg .outgoing ("Agent: Order lookup attempted for status, not found".data),
         Ev.msg .outgoing ("Agent: ".data ++ notFoundMsg)] := by
  decide

end VoiceAgent
